import Mathlib

/-!
# libarpcap: the screen-capture wrapper `ScreenCapture.cpp`

A shallow embedding of `src/src/ScreenCapture.cpp` and `src/include/ScreenCapture.h`.

* Machine integers are natural numbers / integers; the two places where 32-bit
  unsigned arithmetic can wrap (`paddingTop + paddingBottom` and
  `srcHeight - paddingBottom`) carry an explicit reduction modulo `2^32`.
* Pointers to plain data are addresses (`Nat`, `0` is `nullptr`); an out-parameter
  such as `ARPFrameBuffer *fb` is an `Option` holding the pointed-to record
  (`none` is `nullptr`), and the record after the call is returned.
* Strong pointers (`sp<T>`) are `Option`s; the CPU consumer carries the state of
  the platform object it refers to.
* The Android platform is not part of the repository. Its answers during one
  invocation are a parameter (`Platform`), and every call into it is recorded, in
  order, in a list of `PlatformCall`s returned next to the result.
* Dereferencing a null pointer has no defined behaviour: functions that can do so
  return `none` there.
-/

namespace arp

/-! ## Constants and records of the header and of the platform -/

/-- Platform status codes (`android::status_t`, a 32-bit signed integer). -/
abbrev status_t := Int

/-- The platform code `android::NO_ERROR` (`OK`). -/
def NO_ERROR : status_t := 0

/-- The platform code `android::BAD_VALUE` (`-EINVAL`). -/
def BAD_VALUE : status_t := -22

/-- The platform code `android::ALREADY_EXISTS` (`-EEXIST`). -/
def ALREADY_EXISTS : status_t := -17

/-- The platform code `android::NOT_ENOUGH_DATA` (`-ENODATA`). -/
def NOT_ENOUGH_DATA : status_t := -61

/-- The display name, `#define NAME "ARP"`. -/
def NAME : String := "ARP"

/-- The constant `#define MAX_LOCKED_BUFFERS 3`. -/
def MAX_LOCKED_BUFFERS : Nat := 3

/-- Header enum value `PIXEL_FORMAT_RGBA_8888 = 1`. -/
def PIXEL_FORMAT_RGBA_8888 : Int := 1

/-- Header enum value `DISPLAY_ORIENTATION_0 = 0`. -/
def DISPLAY_ORIENTATION_0 : Nat := 0

/-- Header enum value `DISPLAY_ORIENTATION_90 = 1`. -/
def DISPLAY_ORIENTATION_90 : Nat := 1

/-- Header enum value `DISPLAY_ORIENTATION_180 = 2`. -/
def DISPLAY_ORIENTATION_180 : Nat := 2

/-- Header enum value `DISPLAY_ORIENTATION_270 = 3`. -/
def DISPLAY_ORIENTATION_270 : Nat := 3

/-- The modulus of `uint32_t` arithmetic. -/
def U32 : Nat := 2 ^ 32

/-- Addition of two `uint32_t` values. -/
def u32_add (a b : Nat) : Nat := (a + b) % U32

/-- Subtraction of two `uint32_t` values (wraps around below zero). -/
def u32_sub (a b : Nat) : Nat := (a + (U32 - b % U32)) % U32

/-- The macro `SWAP(a, b)`: `a ^= b; b ^= a; a ^= b;` on two distinct variables.
Returns the final values of `(a, b)`. -/
def SWAP (a b : Nat) : Nat × Nat :=
  let a1 := a ^^^ b
  let b1 := b ^^^ a1
  let a2 := a1 ^^^ b1
  (a2, b1)

/-- The header record `ARPDisplayInfo`. -/
structure ARPDisplayInfo where
  width : Nat
  height : Nat
  orientation : Nat
  deriving DecidableEq, Repr

/-- The header record `ARPFrameBuffer`. -/
structure ARPFrameBuffer where
  data : Nat
  width : Nat
  height : Nat
  format : Int
  stride : Nat
  timestamp : Int
  frame_number : Nat
  deriving DecidableEq, Repr

/-- The function pointer type `arp_callback`; `none` is `nullptr`, `some a` the
function at address `a`. -/
abbrev arp_callback := Option Nat

/-- The platform record `android::DisplayInfo`, restricted to the fields read. -/
structure DisplayInfo where
  w : Nat
  h : Nat
  orientation : Nat
  deriving DecidableEq, Repr

/-- The platform record `CpuConsumer::LockedBuffer`, restricted to the fields read. -/
structure LockedBuffer where
  data : Nat
  width : Nat
  height : Nat
  format : Int
  stride : Nat
  timestamp : Int
  frameNumber : Nat
  deriving DecidableEq, Repr

/-- The platform record `android::Rect`, as the four 32-bit words handed to its
constructor. -/
structure Rect where
  left : Nat
  top : Nat
  right : Nat
  bottom : Nat
  deriving DecidableEq, Repr

/-- The two-argument constructor `Rect(w, h)`: the rectangle `(0, 0, w, h)`. -/
def Rect.ofSize (w h : Nat) : Rect := ⟨0, 0, w, h⟩

/-- The platform object behind `sp<CpuConsumer>`: the bound it was constructed
with and the buffers currently locked through it. -/
structure CpuConsumer where
  maxLockedBuffers : Nat
  locked : List LockedBuffer
  deriving DecidableEq, Repr

/-- The class `FrameProxy`: it only stores the callback. -/
structure FrameProxy where
  mCallback : arp_callback
  deriving DecidableEq, Repr

/-- `FrameProxy::onFrameAvailable`: the callback invocation it makes, if any, as
`(callback, frame number, timestamp)`. -/
def FrameProxy.onFrameAvailable (f : FrameProxy) (mFrameNumber : Nat) (mTimestamp : Int) :
    Option (Nat × Nat × Int) :=
  match f.mCallback with
  | some cb => some (cb, mFrameNumber, mTimestamp)
  | none => none

/-- One call into the platform, with the arguments the wrapper passed and, for the
calls whose status the wrapper reads, the status the platform returned. -/
inductive PlatformCall where
  | getBuiltInDisplay
  | getDisplayInfo (result : status_t) (info : DisplayInfo)
  | initCheck (result : status_t)
  | createDisplay (name : String) (secure : Bool)
  | createBufferQueue
  | setDefaultBufferSize (width height : Nat)
  | setDefaultBufferFormat (format : Int)
  | newCpuConsumer (maxLockedBuffers : Nat)
  | setName (name : String)
  | setFrameAvailableListener (listener : FrameProxy)
  | openGlobalTransaction
  | setDisplaySurface
  | setDisplayProjection (orientation : Nat) (layerStackRect visibleRect : Rect)
  | setDisplayLayerStack (layerStack : Nat)
  | closeGlobalTransaction
  | destroyDisplay (display : Nat)
  | lockNextBuffer (result : status_t)
  | unlockBuffer (buffer : LockedBuffer)
  deriving DecidableEq, Repr

/-- The status a platform call returned, for the three calls whose status the
wrapper reads. -/
def PlatformCall.status : PlatformCall → Option status_t
  | .getDisplayInfo result _ => some result
  | .initCheck result => some result
  | .lockNextBuffer result => some result
  | _ => none

/-- The behaviour of the platform during one invocation of the wrapper. -/
structure Platform where
  /-- Contents of a freshly allocated, not yet written `LockedBuffer`. -/
  uninitialized : LockedBuffer
  /-- `SurfaceComposerClient::getDisplayInfo` for the main display: the status and
  the record left in the out-parameter. -/
  getDisplayInfo : status_t × DisplayInfo
  /-- `SurfaceComposerClient::initCheck`. -/
  initCheck : status_t
  /-- `SurfaceComposerClient::createDisplay`: the display token (`none` is null). -/
  createDisplay : Option Nat
  /-- `CpuConsumer::lockNextBuffer(&buffer)`: the status, the record left in the
  out-parameter and the consumer afterwards. -/
  lockNextBuffer : CpuConsumer → LockedBuffer → status_t × LockedBuffer × CpuConsumer
  /-- `CpuConsumer::unlockBuffer(buffer)`: the consumer afterwards. -/
  unlockBuffer : CpuConsumer → LockedBuffer → CpuConsumer

/-! ## The class `ScreenCapture` -/

/-- The fields of `ScreenCapture`. -/
structure ScreenCapture where
  mBuffer : LockedBuffer
  mDisplay : Option Nat
  mBufferProducer : Option Unit
  mBufferConsumer : Option Unit
  mCpuConsumer : Option CpuConsumer
  mFrameProxy : Option FrameProxy
  deriving DecidableEq, Repr

/-- The constructor `ScreenCapture::ScreenCapture()`: only `mBuffer.data` is
written; the strong pointers start out null. -/
def ScreenCapture.new (uninitialized : LockedBuffer) : ScreenCapture :=
  { mBuffer := { uninitialized with data := 0 }
    mDisplay := none
    mBufferProducer := none
    mBufferConsumer := none
    mCpuConsumer := none
    mFrameProxy := none }

/-- `arp::getMainDisplayInfo`: status, the record left in `*info`, and the calls. -/
def getMainDisplayInfo (p : Platform) : status_t × DisplayInfo × List PlatformCall :=
  (p.getDisplayInfo.1, p.getDisplayInfo.2,
    [PlatformCall.getBuiltInDisplay,
     PlatformCall.getDisplayInfo p.getDisplayInfo.1 p.getDisplayInfo.2])

/-- `ScreenCapture::releaseFrameBuffer`. -/
def ScreenCapture.releaseFrameBuffer (p : Platform) (s : ScreenCapture) :
    Option (ScreenCapture × List PlatformCall) :=
  if s.mBuffer.data ≠ 0 then
    match s.mCpuConsumer with
    | none => none
    | some c =>
      some ({ s with
                mCpuConsumer := some (p.unlockBuffer c s.mBuffer)
                mBuffer := { s.mBuffer with data := 0 } },
            [PlatformCall.unlockBuffer s.mBuffer])
  else some (s, [])

/-- `ScreenCapture::destroyDisplay`. -/
def ScreenCapture.destroyDisplay (p : Platform) (s : ScreenCapture) :
    Option (ScreenCapture × List PlatformCall) :=
  match s.mDisplay with
  | some d =>
    match s.releaseFrameBuffer p with
    | none => none
    | some (s1, t1) =>
      some ({ s1 with
                mBufferProducer := none
                mBufferConsumer := none
                mCpuConsumer := none
                mDisplay := none
                mFrameProxy := none },
            PlatformCall.destroyDisplay d :: t1)
  | none => some (s, [])

/-- `ScreenCapture::acquireFrameBuffer`; `fb` is the record `fb` points to. -/
def ScreenCapture.acquireFrameBuffer (p : Platform) (s : ScreenCapture) (fb : ARPFrameBuffer) :
    Option (status_t × ARPFrameBuffer × ScreenCapture × List PlatformCall) :=
  match s.mCpuConsumer with
  | none => none
  | some c =>
    let r := p.lockNextBuffer c s.mBuffer
    let result := r.1
    let s1 := { s with mBuffer := r.2.1, mCpuConsumer := some r.2.2 }
    if result ≠ NO_ERROR then
      some (result, fb, s1, [PlatformCall.lockNextBuffer result])
    else
      let fb1 := { fb with data := s1.mBuffer.data }
      let fb2 := { fb1 with format := s1.mBuffer.format }
      let fb3 := { fb2 with width := s1.mBuffer.width }
      let fb4 := { fb3 with height := s1.mBuffer.height }
      let fb5 := { fb4 with stride := s1.mBuffer.stride }
      let fb6 := { fb5 with timestamp := s1.mBuffer.timestamp }
      let fb7 := { fb6 with frame_number := s1.mBuffer.frameNumber }
      some (NO_ERROR, fb7, s1, [PlatformCall.lockNextBuffer result])

/-- The values of `(srcWidth, srcHeight, dstWidth, dstHeight)` in
`ScreenCapture::createDisplay` after the orientation test (lines 117-127). -/
def projectionSizes (info : DisplayInfo) (width height : Nat) : Nat × Nat × Nat × Nat :=
  let srcWidth := info.w
  let srcHeight := info.h
  let dstWidth := width
  let dstHeight := height
  if info.orientation = DISPLAY_ORIENTATION_90 ∨ info.orientation = DISPLAY_ORIENTATION_270 then
    let src := SWAP srcWidth srcHeight
    let dst := SWAP dstWidth dstHeight
    (src.1, src.2, dst.1, dst.2)
  else
    (srcWidth, srcHeight, dstWidth, dstHeight)

/-- `ScreenCapture::createDisplay`. -/
def ScreenCapture.createDisplay (p : Platform) (s : ScreenCapture)
    (paddingTop paddingBottom width height : Nat) (cb : arp_callback) :
    Option (status_t × ScreenCapture × List PlatformCall) :=
  match s.destroyDisplay p with
  | none => none
  | some (s0, t0) =>
    let s1 := { s0 with mFrameProxy := some (FrameProxy.mk cb) }
    let r := getMainDisplayInfo p
    let result := r.1
    let info := r.2.1
    if result ≠ NO_ERROR then
      some (result, s1, t0 ++ r.2.2)
    else
      let sz := projectionSizes info width height
      let srcWidth := sz.1
      let srcHeight := sz.2.1
      let dstWidth := sz.2.2.1
      let dstHeight := sz.2.2.2
      let layerStackRect := Rect.mk 0 paddingTop srcWidth (u32_sub srcHeight paddingBottom)
      let visibleRect := Rect.ofSize dstWidth dstHeight
      let result := p.initCheck
      if result ≠ NO_ERROR then
        some (result, s1, t0 ++ r.2.2 ++ [PlatformCall.initCheck result])
      else
        let s2 := { s1 with
                      mDisplay := p.createDisplay
                      mBufferProducer := some ()
                      mBufferConsumer := some ()
                      mCpuConsumer := some (CpuConsumer.mk MAX_LOCKED_BUFFERS []) }
        some (NO_ERROR, s2,
          t0 ++ r.2.2 ++
          [PlatformCall.initCheck result,
           PlatformCall.createDisplay NAME true,
           PlatformCall.createBufferQueue,
           PlatformCall.setDefaultBufferSize dstWidth dstHeight,
           PlatformCall.setDefaultBufferFormat PIXEL_FORMAT_RGBA_8888,
           PlatformCall.newCpuConsumer MAX_LOCKED_BUFFERS,
           PlatformCall.setName NAME,
           PlatformCall.setFrameAvailableListener (FrameProxy.mk cb),
           PlatformCall.openGlobalTransaction,
           PlatformCall.setDisplaySurface,
           PlatformCall.setDisplayProjection DISPLAY_ORIENTATION_0 layerStackRect visibleRect,
           PlatformCall.setDisplayLayerStack 0,
           PlatformCall.closeGlobalTransaction])

/-- The destructor `ScreenCapture::~ScreenCapture()`, run by `delete sCap`: it calls
`destroyDisplay` and the object is gone afterwards, so only the calls remain. -/
def ScreenCapture.delete (p : Platform) (s : ScreenCapture) : Option (List PlatformCall) :=
  match s.destroyDisplay p with
  | none => none
  | some r => some r.2

end arp

/-! ## The C interface; the argument `sCap` is the global `static arp::ScreenCapture *sCap` -/

open arp

/-- The function `arpcap_get_display_info`; `info` is the record `info` points to. -/
def arpcap_get_display_info (p : Platform) (info : Option ARPDisplayInfo) :
    status_t × Option ARPDisplayInfo × List PlatformCall :=
  match info with
  | none => (BAD_VALUE, none, [])
  | some i =>
    let r := getMainDisplayInfo p
    let result := r.1
    let displayInfo := r.2.1
    if result ≠ NO_ERROR then
      (result, some i, r.2.2)
    else
      let i1 := { i with width := displayInfo.w }
      let i2 := { i1 with height := displayInfo.h }
      let i3 := { i2 with orientation := displayInfo.orientation }
      (NO_ERROR, some i3, r.2.2)

/-- The argument test of `arpcap_create` (lines 244-245). -/
def arpcap_create_rejects (paddingTop paddingBottom width height : Nat) (cb : arp_callback) : Bool :=
  (width == 0 || height == 0 || cb.isNone) &&
    decide (u32_add paddingTop paddingBottom < height)

/-- The function `arpcap_create`: status, the global `sCap` afterwards, the calls. -/
def arpcap_create (p : Platform) (sCap : Option ScreenCapture)
    (paddingTop paddingBottom width height : Nat) (cb : arp_callback) :
    Option (status_t × Option ScreenCapture × List PlatformCall) :=
  match sCap with
  | some s => some (ALREADY_EXISTS, some s, [])
  | none =>
    if arpcap_create_rejects paddingTop paddingBottom width height cb then
      some (BAD_VALUE, none, [])
    else
      match (ScreenCapture.new p.uninitialized).createDisplay p
              paddingTop paddingBottom width height cb with
      | none => none
      | some (res, s, t) =>
        if res ≠ NO_ERROR then
          match s.delete p with
          | none => none
          | some t1 => some (res, none, t ++ t1)
        else
          some (res, some s, t)

/-- The function `arpcap_destroy`: the global `sCap` afterwards and the calls. -/
def arpcap_destroy (p : Platform) (sCap : Option ScreenCapture) :
    Option (Option ScreenCapture × List PlatformCall) :=
  match sCap with
  | some s =>
    match s.destroyDisplay p with
    | none => none
    | some (s1, t1) =>
      match s1.delete p with
      | none => none
      | some t2 => some (none, t1 ++ t2)
  | none => some (none, [])

/-- The function `arpcap_fini`. -/
def arpcap_fini (p : Platform) (sCap : Option ScreenCapture) :
    Option (Option ScreenCapture × List PlatformCall) :=
  arpcap_destroy p sCap

/-- The function `arpcap_acquire_frame_buffer`: status, `*fb` afterwards, the global
afterwards, the calls. With `fb` non-null and `sCap` null the call dereferences a
null pointer. -/
def arpcap_acquire_frame_buffer (p : Platform) (sCap : Option ScreenCapture)
    (fb : Option ARPFrameBuffer) :
    Option (status_t × Option ARPFrameBuffer × Option ScreenCapture × List PlatformCall) :=
  match fb with
  | none => some (BAD_VALUE, none, sCap, [])
  | some b =>
    match sCap with
    | none => none
    | some s =>
      match s.acquireFrameBuffer p b with
      | none => none
      | some (result, b1, s1, t) => some (result, some b1, some s1, t)

/-- The function `arpcap_release_frame_buffer`. -/
def arpcap_release_frame_buffer (p : Platform) (sCap : Option ScreenCapture) :
    Option (Option ScreenCapture × List PlatformCall) :=
  match sCap with
  | none => none
  | some s =>
    match s.releaseFrameBuffer p with
    | none => none
    | some (s1, t) => some (some s1, t)

/-! ## The platform CPU consumer and sequences of interface calls -/

/-- Modelled from the spec: `CpuConsumer::lockNextBuffer` of the platform consumer
object (platform code, outside the repository). It grants a lock while fewer than
`maxLockedBuffers` buffers are locked and a frame is available; `frame` is the next
available frame, if any. A refused call leaves the out-parameter untouched. -/
def arp.CpuConsumer.lockNextBuffer (frame : Option LockedBuffer) (c : CpuConsumer)
    (nativeBuffer : LockedBuffer) : status_t × LockedBuffer × CpuConsumer :=
  if c.locked.length < c.maxLockedBuffers then
    match frame with
    | some b => (NO_ERROR, b, { c with locked := b :: c.locked })
    | none => (BAD_VALUE, nativeBuffer, c)
  else
    (NOT_ENOUGH_DATA, nativeBuffer, c)

/-- Modelled from the spec: `CpuConsumer::unlockBuffer` of the platform consumer
object (platform code, outside the repository). The locked buffer with the same
data pointer, if there is one, is no longer locked. -/
def arp.CpuConsumer.unlockBuffer (c : CpuConsumer) (nativeBuffer : LockedBuffer) : CpuConsumer :=
  { c with locked := c.locked.eraseP (fun b => b.data == nativeBuffer.data) }

/-- A platform whose CPU consumer is the modelled one, with `frame` the frame
available to the next `lockNextBuffer`; the other answers are those of `p`. -/
def arp.Platform.withConsumer (p : Platform) (frame : Option LockedBuffer) : Platform :=
  { p with
      lockNextBuffer := CpuConsumer.lockNextBuffer frame
      unlockBuffer := CpuConsumer.unlockBuffer }

/-- One call of the C interface with its arguments. -/
inductive ApiCall where
  | get_display_info (info : Option ARPDisplayInfo)
  | create (paddingTop paddingBottom width height : Nat) (cb : arp_callback)
  | destroy
  | acquire_frame_buffer (fb : Option ARPFrameBuffer)
  | release_frame_buffer

/-- What a call of the C interface leaves behind: the returned status (`none` for a
`void` function), the global `sCap` and the platform calls made. -/
structure Outcome where
  status : Option status_t
  sCap : Option ScreenCapture
  calls : List PlatformCall

/-- Dispatch of one interface call to the function it names. -/
def invoke (p : Platform) (sCap : Option ScreenCapture) : ApiCall → Option Outcome
  | .get_display_info info =>
    let r := arpcap_get_display_info p info
    some ⟨some r.1, sCap, r.2.2⟩
  | .create paddingTop paddingBottom width height cb =>
    (arpcap_create p sCap paddingTop paddingBottom width height cb).map
      fun r => ⟨some r.1, r.2.1, r.2.2⟩
  | .destroy =>
    (arpcap_destroy p sCap).map fun r => ⟨none, r.1, r.2⟩
  | .acquire_frame_buffer fb =>
    (arpcap_acquire_frame_buffer p sCap fb).map fun r => ⟨some r.1, r.2.2.1, r.2.2.2⟩
  | .release_frame_buffer =>
    (arpcap_release_frame_buffer p sCap).map fun r => ⟨none, r.1, r.2⟩

/-- A sequence of interface calls, each against the platform behaviour of its
moment, started from the global `sCap`; `none` when a call has no defined
behaviour. -/
def run : List (Platform × ApiCall) → Option ScreenCapture → Option (Option ScreenCapture)
  | [], sCap => some sCap
  | (p, call) :: rest, sCap =>
    match invoke p sCap call with
    | none => none
    | some o => run rest o.sCap

/-- The global states a client can reach from program start (`sCap == nullptr`)
through the C interface, whatever the platform answers. -/
def Reachable (sCap : Option ScreenCapture) : Prop :=
  ∃ calls : List (Platform × ApiCall), run calls none = some sCap

/-- The global states a client can reach from program start through any sequence of
calls of the C interface (`arpcap_create`, `arpcap_acquire_frame_buffer`,
`arpcap_release_frame_buffer`, `arpcap_destroy`, and `arpcap_get_display_info`, which
leaves the session alone) when the CPU consumer is the modelled platform object;
each call comes with the other platform answers and the frame available to it. -/
def ReachableWithConsumer (sCap : Option ScreenCapture) : Prop :=
  ∃ calls : List ((Platform × Option LockedBuffer) × ApiCall),
    run (calls.map fun x => (x.1.1.withConsumer x.1.2, x.2)) none = some sCap

/-- The number of buffers locked through `lockNextBuffer` of the session's consumer
and not yet passed to its `unlockBuffer`. -/
def lockedBuffers (sCap : Option ScreenCapture) : Nat :=
  match sCap with
  | some s =>
    match s.mCpuConsumer with
    | some c => c.locked.length
    | none => 0
  | none => 0

/-! ## Concrete inputs used in examples -/

/-- A display of 1080 x 1920 in its natural orientation. -/
def exDisplay : DisplayInfo := ⟨1080, 1920, 0⟩

/-- A frame as the consumer could hand it out. -/
def exFrame1 : LockedBuffer := ⟨4096, 720, 1280, 1, 720, 1000, 1⟩

/-- A second frame. -/
def exFrame2 : LockedBuffer := ⟨8192, 720, 1280, 1, 720, 2000, 2⟩

/-- A third frame. -/
def exFrame3 : LockedBuffer := ⟨12288, 720, 1280, 1, 720, 3000, 3⟩

/-- A platform on which every call succeeds and `lockNextBuffer` hands out
`exFrame1`. -/
def exPlatform : Platform :=
  { uninitialized := ⟨7, 7, 7, 7, 7, 7, 7⟩
    getDisplayInfo := (NO_ERROR, exDisplay)
    initCheck := NO_ERROR
    createDisplay := some 1
    lockNextBuffer := fun c _ => (NO_ERROR, exFrame1, c)
    unlockBuffer := fun c _ => c }

/-- A platform on which the status-returning calls fail with `-32`. -/
def exFailing : Platform :=
  { exPlatform with
      getDisplayInfo := (-32, ⟨0, 0, 0⟩)
      initCheck := -32
      lockNextBuffer := fun c b => (-32, b, c) }

/-- A platform on which only `initCheck` fails, with `-32`. -/
def exInitFailing : Platform :=
  { exPlatform with initCheck := -32 }

/-- A caller-side frame record before the call. -/
def exFb : ARPFrameBuffer := ⟨0, 0, 0, 0, 0, 0, 0⟩

/-- A caller-side display record before the call. -/
def exInfo : ARPDisplayInfo := ⟨0, 0, 0⟩

/-- The session right after a successful `arpcap_create(0, 0, 720, 1280, cb)` on
`exPlatform`. -/
def exSession : ScreenCapture :=
  { mBuffer := ⟨0, 7, 7, 7, 7, 7, 7⟩
    mDisplay := some 1
    mBufferProducer := some ()
    mBufferConsumer := some ()
    mCpuConsumer := some ⟨3, []⟩
    mFrameProxy := some ⟨some 1⟩ }

/-- The session `exSession` after a successful acquire of `exFrame1` from the
modelled consumer. -/
def exLocked : ScreenCapture :=
  { exSession with mBuffer := exFrame1, mCpuConsumer := some ⟨3, [exFrame1]⟩ }

/-- The session `exLocked` after a second successful acquire, of `exFrame2`, without
a release in between. -/
def exLocked2 : ScreenCapture :=
  { exSession with mBuffer := exFrame2, mCpuConsumer := some ⟨3, [exFrame2, exFrame1]⟩ }

/-- The session `exLocked2` after a third successful acquire, of `exFrame3`. -/
def exLocked3 : ScreenCapture :=
  { exSession with
      mBuffer := exFrame3, mCpuConsumer := some ⟨3, [exFrame3, exFrame2, exFrame1]⟩ }

/-- The session's consumer, if any, was built with `MAX_LOCKED_BUFFERS` and holds no
more locked buffers than that. -/
def ConsumerBounded (sCap : Option ScreenCapture) : Prop :=
  ∀ s c, sCap = some s → s.mCpuConsumer = some c →
    c.maxLockedBuffers = MAX_LOCKED_BUFFERS ∧ c.locked.length ≤ MAX_LOCKED_BUFFERS

/-- The calls `arpcap_create(0, 0, 720, 1280, cb)` and then three
`arpcap_acquire_frame_buffer(fb)` with the frames `exFrame1`, `exFrame2`, `exFrame3`
available in turn, and no release in between. -/
def exThreeAcquires : List ((Platform × Option LockedBuffer) × ApiCall) :=
  [((exPlatform, none), ApiCall.create 0 0 720 1280 (some 1)),
   ((exPlatform, some exFrame1), ApiCall.acquire_frame_buffer (some exFb)),
   ((exPlatform, some exFrame2), ApiCall.acquire_frame_buffer (some exFb)),
   ((exPlatform, some exFrame3), ApiCall.acquire_frame_buffer (some exFb))]

/-- The session, if there is one, holds a CPU consumer. -/
def SessionHasConsumer (sCap : Option ScreenCapture) : Prop :=
  ∀ s, sCap = some s → ∃ c, s.mCpuConsumer = some c

/-! ## Basic facts -/

theorem SWAP_exchanges (a b : Nat) : SWAP a b = (b, a) := by
  simp only [SWAP]
  have h1 : b ^^^ (a ^^^ b) = a := by
    rw [Nat.xor_comm a b, ← Nat.xor_assoc, Nat.xor_self, Nat.zero_xor]
  rw [h1, Nat.xor_comm a b, Nat.xor_assoc, Nat.xor_self, Nat.xor_zero]

theorem u32_sub_eq (a b : Nat) :
    ((u32_sub a b : Nat) : Int) = ((a : Int) - (b : Int)) % 2 ^ 32 := by
  simp only [u32_sub, U32]
  norm_num
  omega

theorem u32_sub_of_le (a b : Nat) (ha : a < 2 ^ 32) (hb : b ≤ a) : u32_sub a b = a - b := by
  simp only [u32_sub, U32]
  norm_num at ha ⊢
  omega

theorem new_destroyDisplay (p : Platform) (u : LockedBuffer) :
    (ScreenCapture.new u).destroyDisplay p = some (ScreenCapture.new u, []) := by
  rfl

theorem releaseFrameBuffer_defined (p : Platform) (s : ScreenCapture) (c : CpuConsumer)
    (hc : s.mCpuConsumer = some c) :
    s.releaseFrameBuffer p =
      if s.mBuffer.data ≠ 0 then
        some ({ s with
                  mCpuConsumer := some (p.unlockBuffer c s.mBuffer)
                  mBuffer := { s.mBuffer with data := 0 } },
              [PlatformCall.unlockBuffer s.mBuffer])
      else some (s, []) := by
  simp only [ScreenCapture.releaseFrameBuffer, hc]

theorem releaseFrameBuffer_twice (p p2 : Platform) (s s1 : ScreenCapture)
    (t : List PlatformCall) (h : s.releaseFrameBuffer p = some (s1, t)) :
    s1.releaseFrameBuffer p2 = some (s1, []) := by
  unfold ScreenCapture.releaseFrameBuffer at h
  by_cases hd : s.mBuffer.data = 0
  · simp [hd] at h
    obtain ⟨rfl, -⟩ := h
    simp [ScreenCapture.releaseFrameBuffer, hd]
  · cases hc : s.mCpuConsumer with
    | none => simp [hd, hc] at h
    | some c =>
      simp [hd, hc] at h
      obtain ⟨rfl, -⟩ := h
      simp [ScreenCapture.releaseFrameBuffer]

theorem destroyDisplay_twice (p p2 : Platform) (s s1 : ScreenCapture)
    (t : List PlatformCall) (h : s.destroyDisplay p = some (s1, t)) :
    s1.destroyDisplay p2 = some (s1, []) := by
  unfold ScreenCapture.destroyDisplay at h
  cases hd : s.mDisplay with
  | none =>
    simp [hd] at h
    obtain ⟨rfl, -⟩ := h
    simp [ScreenCapture.destroyDisplay, hd]
  | some d =>
    cases hr : s.releaseFrameBuffer p with
    | none => simp [hd, hr] at h
    | some r =>
      obtain ⟨s0, t0⟩ := r
      simp [hd, hr] at h
      obtain ⟨rfl, -⟩ := h
      simp [ScreenCapture.destroyDisplay]

theorem destroyDisplay_no_display (p : Platform) (s : ScreenCapture) (h : s.mDisplay = none) :
    s.destroyDisplay p = some (s, []) := by
  simp [ScreenCapture.destroyDisplay, h]

theorem delete_no_display (p : Platform) (s : ScreenCapture) (h : s.mDisplay = none) :
    s.delete p = some [] := by
  simp [ScreenCapture.delete, destroyDisplay_no_display p s h]

theorem createDisplay_getDisplayInfo_fails (p : Platform) (s s0 : ScreenCapture)
    (t0 : List PlatformCall) (paddingTop paddingBottom width height : Nat) (cb : arp_callback)
    (h0 : s.destroyDisplay p = some (s0, t0)) (he : p.getDisplayInfo.1 ≠ NO_ERROR) :
    s.createDisplay p paddingTop paddingBottom width height cb =
      some (p.getDisplayInfo.1, { s0 with mFrameProxy := some (FrameProxy.mk cb) },
        t0 ++ [PlatformCall.getBuiltInDisplay,
               PlatformCall.getDisplayInfo p.getDisplayInfo.1 p.getDisplayInfo.2]) := by
  simp [ScreenCapture.createDisplay, h0, getMainDisplayInfo, he]

theorem createDisplay_initCheck_fails (p : Platform) (s s0 : ScreenCapture)
    (t0 : List PlatformCall) (paddingTop paddingBottom width height : Nat) (cb : arp_callback)
    (h0 : s.destroyDisplay p = some (s0, t0)) (hd : p.getDisplayInfo.1 = NO_ERROR)
    (he : p.initCheck ≠ NO_ERROR) :
    s.createDisplay p paddingTop paddingBottom width height cb =
      some (p.initCheck, { s0 with mFrameProxy := some (FrameProxy.mk cb) },
        t0 ++ [PlatformCall.getBuiltInDisplay,
               PlatformCall.getDisplayInfo p.getDisplayInfo.1 p.getDisplayInfo.2,
               PlatformCall.initCheck p.initCheck]) := by
  simp [ScreenCapture.createDisplay, h0, getMainDisplayInfo, hd, he]

theorem createDisplay_succeeds (p : Platform) (s s0 : ScreenCapture)
    (t0 : List PlatformCall) (paddingTop paddingBottom width height : Nat) (cb : arp_callback)
    (h0 : s.destroyDisplay p = some (s0, t0)) (hd : p.getDisplayInfo.1 = NO_ERROR)
    (hi : p.initCheck = NO_ERROR) :
    s.createDisplay p paddingTop paddingBottom width height cb =
      some (NO_ERROR,
        { s0 with
            mFrameProxy := some (FrameProxy.mk cb)
            mDisplay := p.createDisplay
            mBufferProducer := some ()
            mBufferConsumer := some ()
            mCpuConsumer := some (CpuConsumer.mk MAX_LOCKED_BUFFERS []) },
        t0 ++
          [PlatformCall.getBuiltInDisplay,
           PlatformCall.getDisplayInfo p.getDisplayInfo.1 p.getDisplayInfo.2,
           PlatformCall.initCheck NO_ERROR,
           PlatformCall.createDisplay NAME true,
           PlatformCall.createBufferQueue,
           PlatformCall.setDefaultBufferSize
             (projectionSizes p.getDisplayInfo.2 width height).2.2.1
             (projectionSizes p.getDisplayInfo.2 width height).2.2.2,
           PlatformCall.setDefaultBufferFormat PIXEL_FORMAT_RGBA_8888,
           PlatformCall.newCpuConsumer MAX_LOCKED_BUFFERS,
           PlatformCall.setName NAME,
           PlatformCall.setFrameAvailableListener (FrameProxy.mk cb),
           PlatformCall.openGlobalTransaction,
           PlatformCall.setDisplaySurface,
           PlatformCall.setDisplayProjection DISPLAY_ORIENTATION_0
             (Rect.mk 0 paddingTop (projectionSizes p.getDisplayInfo.2 width height).1
               (u32_sub (projectionSizes p.getDisplayInfo.2 width height).2.1 paddingBottom))
             (Rect.ofSize (projectionSizes p.getDisplayInfo.2 width height).2.2.1
               (projectionSizes p.getDisplayInfo.2 width height).2.2.2),
           PlatformCall.setDisplayLayerStack 0,
           PlatformCall.closeGlobalTransaction]) := by
  simp [ScreenCapture.createDisplay, h0, getMainDisplayInfo, hd, hi]

theorem projectionSizes_eq (info : DisplayInfo) (width height : Nat) :
    projectionSizes info width height =
      if info.orientation = DISPLAY_ORIENTATION_90 ∨ info.orientation = DISPLAY_ORIENTATION_270
      then (info.h, info.w, height, width)
      else (info.w, info.h, width, height) := by
  simp only [projectionSizes, SWAP_exchanges]

/-! ## Frame and display records are copied field by field -/

/-- C1: with `fb` non-null and a session whose consumer is set, when the platform
`lockNextBuffer` returns `NO_ERROR` and leaves the locked buffer `B`,
`arpcap_acquire_frame_buffer(fb)` returns `NO_ERROR` and afterwards the seven fields
of `*fb` are `B.data`, `B.width`, `B.height`, `B.format`, `B.stride`, `B.timestamp`
and `B.frameNumber`, each in the field of the same name. -/
theorem C1_acquire_copies_locked_buffer (p : Platform) (s : ScreenCapture) (c c1 : CpuConsumer)
    (fb : ARPFrameBuffer) (B : LockedBuffer)
    (hc : s.mCpuConsumer = some c)
    (hlock : p.lockNextBuffer c s.mBuffer = (NO_ERROR, B, c1)) :
    ∃ (fb1 : ARPFrameBuffer) (s1 : ScreenCapture) (t : List PlatformCall),
      arpcap_acquire_frame_buffer p (some s) (some fb) = some (NO_ERROR, some fb1, some s1, t) ∧
      fb1.data = B.data ∧ fb1.width = B.width ∧ fb1.height = B.height ∧
      fb1.format = B.format ∧ fb1.stride = B.stride ∧ fb1.timestamp = B.timestamp ∧
      fb1.frame_number = B.frameNumber := by
  refine ⟨⟨B.data, B.width, B.height, B.format, B.stride, B.timestamp, B.frameNumber⟩,
    { s with mBuffer := B, mCpuConsumer := some c1 },
    [PlatformCall.lockNextBuffer NO_ERROR], ?_, rfl, rfl, rfl, rfl, rfl, rfl, rfl⟩
  simp [arpcap_acquire_frame_buffer, ScreenCapture.acquireFrameBuffer, hc, hlock]

/-- C1 at a concrete session: the frame `exFrame1` arrives in `*fb`. -/
theorem C1_acquire_copies_locked_buffer_witness :
    ∃ (fb1 : ARPFrameBuffer) (s1 : ScreenCapture) (t : List PlatformCall),
      arpcap_acquire_frame_buffer exPlatform (some exSession) (some exFb) =
        some (NO_ERROR, some fb1, some s1, t) ∧
      fb1.data = exFrame1.data ∧ fb1.width = exFrame1.width ∧ fb1.height = exFrame1.height ∧
      fb1.format = exFrame1.format ∧ fb1.stride = exFrame1.stride ∧
      fb1.timestamp = exFrame1.timestamp ∧ fb1.frame_number = exFrame1.frameNumber :=
  C1_acquire_copies_locked_buffer exPlatform exSession ⟨3, []⟩ ⟨3, []⟩ exFb exFrame1 rfl rfl

/-- C2: with `info` non-null, when the platform `getDisplayInfo` for the main
display returns `NO_ERROR` with record `D`, `arpcap_get_display_info(info)` returns
`NO_ERROR` and afterwards `info.width = D.w`, `info.height = D.h` and
`info.orientation = D.orientation`, whatever the orientation (no swap). -/
theorem C2_display_info_copied (p : Platform) (info : ARPDisplayInfo) (D : DisplayInfo)
    (hd : p.getDisplayInfo = (NO_ERROR, D)) :
    ∃ (info1 : ARPDisplayInfo) (t : List PlatformCall),
      arpcap_get_display_info p (some info) = (NO_ERROR, some info1, t) ∧
      info1.width = D.w ∧ info1.height = D.h ∧ info1.orientation = D.orientation := by
  refine ⟨⟨D.w, D.h, D.orientation⟩,
    [PlatformCall.getBuiltInDisplay, PlatformCall.getDisplayInfo NO_ERROR D], ?_, rfl, rfl, rfl⟩
  simp [arpcap_get_display_info, getMainDisplayInfo, hd]

/-- C2 at a display rotated by 90 degrees: width 1080 and height 1920 are reported as
they are. -/
theorem C2_display_info_copied_witness :
    ∃ (info1 : ARPDisplayInfo) (t : List PlatformCall),
      arpcap_get_display_info { exPlatform with getDisplayInfo := (NO_ERROR, ⟨1080, 1920, 1⟩) }
        (some exInfo) = (NO_ERROR, some info1, t) ∧
      info1.width = 1080 ∧ info1.height = 1920 ∧ info1.orientation = 1 :=
  C2_display_info_copied { exPlatform with getDisplayInfo := (NO_ERROR, ⟨1080, 1920, 1⟩) }
    exInfo ⟨1080, 1920, 1⟩ rfl

/-! ## `arpcap_create` without a session, case by case -/

theorem arpcap_create_rejected (p : Platform) (paddingTop paddingBottom width height : Nat)
    (cb : arp_callback)
    (hr : arpcap_create_rejects paddingTop paddingBottom width height cb = true) :
    arpcap_create p none paddingTop paddingBottom width height cb = some (BAD_VALUE, none, []) := by
  simp [arpcap_create, hr]

theorem arpcap_create_getDisplayInfo_fails (p : Platform)
    (paddingTop paddingBottom width height : Nat) (cb : arp_callback)
    (hr : arpcap_create_rejects paddingTop paddingBottom width height cb = false)
    (he : p.getDisplayInfo.1 ≠ NO_ERROR) :
    arpcap_create p none paddingTop paddingBottom width height cb =
      some (p.getDisplayInfo.1, none,
        [PlatformCall.getBuiltInDisplay,
         PlatformCall.getDisplayInfo p.getDisplayInfo.1 p.getDisplayInfo.2]) := by
  have h1 := createDisplay_getDisplayInfo_fails p (ScreenCapture.new p.uninitialized) _ _
    paddingTop paddingBottom width height cb (new_destroyDisplay p p.uninitialized) he
  simp only [arpcap_create, hr, h1]
  simp [he, ScreenCapture.delete, ScreenCapture.destroyDisplay, ScreenCapture.new]

theorem arpcap_create_initCheck_fails (p : Platform)
    (paddingTop paddingBottom width height : Nat) (cb : arp_callback)
    (hr : arpcap_create_rejects paddingTop paddingBottom width height cb = false)
    (hd : p.getDisplayInfo.1 = NO_ERROR) (he : p.initCheck ≠ NO_ERROR) :
    arpcap_create p none paddingTop paddingBottom width height cb =
      some (p.initCheck, none,
        [PlatformCall.getBuiltInDisplay,
         PlatformCall.getDisplayInfo p.getDisplayInfo.1 p.getDisplayInfo.2,
         PlatformCall.initCheck p.initCheck]) := by
  have h1 := createDisplay_initCheck_fails p (ScreenCapture.new p.uninitialized) _ _
    paddingTop paddingBottom width height cb (new_destroyDisplay p p.uninitialized) hd he
  simp only [arpcap_create, hr, h1]
  simp [he, ScreenCapture.delete, ScreenCapture.destroyDisplay, ScreenCapture.new]

theorem arpcap_create_succeeds (p : Platform)
    (paddingTop paddingBottom width height : Nat) (cb : arp_callback)
    (hr : arpcap_create_rejects paddingTop paddingBottom width height cb = false)
    (hd : p.getDisplayInfo.1 = NO_ERROR) (hi : p.initCheck = NO_ERROR) :
    arpcap_create p none paddingTop paddingBottom width height cb =
      some (NO_ERROR,
        some { ScreenCapture.new p.uninitialized with
                 mFrameProxy := some (FrameProxy.mk cb)
                 mDisplay := p.createDisplay
                 mBufferProducer := some ()
                 mBufferConsumer := some ()
                 mCpuConsumer := some (CpuConsumer.mk MAX_LOCKED_BUFFERS []) },
        [PlatformCall.getBuiltInDisplay,
         PlatformCall.getDisplayInfo p.getDisplayInfo.1 p.getDisplayInfo.2,
         PlatformCall.initCheck NO_ERROR,
         PlatformCall.createDisplay NAME true,
         PlatformCall.createBufferQueue,
         PlatformCall.setDefaultBufferSize
           (projectionSizes p.getDisplayInfo.2 width height).2.2.1
           (projectionSizes p.getDisplayInfo.2 width height).2.2.2,
         PlatformCall.setDefaultBufferFormat PIXEL_FORMAT_RGBA_8888,
         PlatformCall.newCpuConsumer MAX_LOCKED_BUFFERS,
         PlatformCall.setName NAME,
         PlatformCall.setFrameAvailableListener (FrameProxy.mk cb),
         PlatformCall.openGlobalTransaction,
         PlatformCall.setDisplaySurface,
         PlatformCall.setDisplayProjection DISPLAY_ORIENTATION_0
           (Rect.mk 0 paddingTop (projectionSizes p.getDisplayInfo.2 width height).1
             (u32_sub (projectionSizes p.getDisplayInfo.2 width height).2.1 paddingBottom))
           (Rect.ofSize (projectionSizes p.getDisplayInfo.2 width height).2.2.1
             (projectionSizes p.getDisplayInfo.2 width height).2.2.2),
         PlatformCall.setDisplayLayerStack 0,
         PlatformCall.closeGlobalTransaction]) := by
  have h1 := createDisplay_succeeds p (ScreenCapture.new p.uninitialized) _ _
    paddingTop paddingBottom width height cb (new_destroyDisplay p p.uninitialized) hd hi
  simp only [arpcap_create, hr, h1]
  simp

/-- Whatever the platform answers and whatever the arguments, `arpcap_create` has
defined behaviour, and it makes a platform call unless its own checks reject the
call. -/
theorem arpcap_create_total (p : Platform) (sCap : Option ScreenCapture)
    (paddingTop paddingBottom width height : Nat) (cb : arp_callback) :
    ∃ r, arpcap_create p sCap paddingTop paddingBottom width height cb = some r ∧
      ((r.2.2 = [] ∧ (r.1 = BAD_VALUE ∨ r.1 = ALREADY_EXISTS)) ∨
        (r.2.2 ≠ [] ∧ (r.1 = NO_ERROR ∨ ∃ c ∈ r.2.2, c.status = some r.1))) := by
  cases sCap with
  | some s => exact ⟨_, rfl, Or.inl ⟨rfl, Or.inr rfl⟩⟩
  | none =>
    cases hr : arpcap_create_rejects paddingTop paddingBottom width height cb with
    | true => exact ⟨_, arpcap_create_rejected p _ _ _ _ _ hr, Or.inl ⟨rfl, Or.inl rfl⟩⟩
    | false =>
      by_cases hd : p.getDisplayInfo.1 = NO_ERROR
      · by_cases hi : p.initCheck = NO_ERROR
        · exact ⟨_, arpcap_create_succeeds p _ _ _ _ _ hr hd hi, Or.inr ⟨by simp, Or.inl rfl⟩⟩
        · refine ⟨_, arpcap_create_initCheck_fails p _ _ _ _ _ hr hd hi, Or.inr ⟨by simp, ?_⟩⟩
          exact Or.inr ⟨PlatformCall.initCheck p.initCheck, by simp, rfl⟩
      · refine ⟨_, arpcap_create_getDisplayInfo_fails p _ _ _ _ _ hr hd, Or.inr ⟨by simp, ?_⟩⟩
        exact Or.inr ⟨PlatformCall.getDisplayInfo p.getDisplayInfo.1 p.getDisplayInfo.2,
          by simp, rfl⟩

theorem arpcap_get_display_info_fails (p : Platform) (info : ARPDisplayInfo)
    (he : p.getDisplayInfo.1 ≠ NO_ERROR) :
    arpcap_get_display_info p (some info) =
      (p.getDisplayInfo.1, some info,
        [PlatformCall.getBuiltInDisplay,
         PlatformCall.getDisplayInfo p.getDisplayInfo.1 p.getDisplayInfo.2]) := by
  simp [arpcap_get_display_info, getMainDisplayInfo, he]

theorem arpcap_acquire_frame_buffer_eq (p : Platform) (s : ScreenCapture) (c : CpuConsumer)
    (fb : ARPFrameBuffer) (hc : s.mCpuConsumer = some c) :
    arpcap_acquire_frame_buffer p (some s) (some fb) =
      some ((p.lockNextBuffer c s.mBuffer).1,
        some (if (p.lockNextBuffer c s.mBuffer).1 ≠ NO_ERROR then fb
              else ⟨(p.lockNextBuffer c s.mBuffer).2.1.data,
                    (p.lockNextBuffer c s.mBuffer).2.1.width,
                    (p.lockNextBuffer c s.mBuffer).2.1.height,
                    (p.lockNextBuffer c s.mBuffer).2.1.format,
                    (p.lockNextBuffer c s.mBuffer).2.1.stride,
                    (p.lockNextBuffer c s.mBuffer).2.1.timestamp,
                    (p.lockNextBuffer c s.mBuffer).2.1.frameNumber⟩),
        some { s with
                 mBuffer := (p.lockNextBuffer c s.mBuffer).2.1
                 mCpuConsumer := some (p.lockNextBuffer c s.mBuffer).2.2 },
        [PlatformCall.lockNextBuffer (p.lockNextBuffer c s.mBuffer).1]) := by
  by_cases h : (p.lockNextBuffer c s.mBuffer).1 = NO_ERROR
  · simp [arpcap_acquire_frame_buffer, ScreenCapture.acquireFrameBuffer, hc, h]
  · simp [arpcap_acquire_frame_buffer, ScreenCapture.acquireFrameBuffer, hc, h]

/-! ## Where a status other than `NO_ERROR` comes from -/

/-- C3, as stated, fails: `arpcap_get_display_info(nullptr)` returns `BAD_VALUE`,
which is not `NO_ERROR`, and no platform call was made during the invocation. -/
theorem C3_counterexample :
    (arpcap_get_display_info exPlatform none).1 ≠ NO_ERROR ∧
    (arpcap_get_display_info exPlatform none).2.2 = [] ∧
    ¬ ∃ c ∈ (arpcap_get_display_info exPlatform none).2.2,
        c.status = some (arpcap_get_display_info exPlatform none).1 := by
  refine ⟨by decide, rfl, ?_⟩
  simp [arpcap_get_display_info]

/-- C3, amended: for every call of the C interface with defined behaviour, in any
session state and with any arguments, a returned status other than `NO_ERROR` is
either `BAD_VALUE` or `ALREADY_EXISTS` produced by the wrapper's own check before
any platform call was made, or the status returned by a platform call
(`getDisplayInfo`, `initCheck` or `lockNextBuffer`) made during that invocation. -/
theorem C3_status_rejected_or_forwarded (p : Platform) (sCap : Option ScreenCapture)
    (call : ApiCall) (o : Outcome) (e : status_t)
    (hinv : invoke p sCap call = some o) (hs : o.status = some e) (hne : e ≠ NO_ERROR) :
    (o.calls = [] ∧ (e = BAD_VALUE ∨ e = ALREADY_EXISTS)) ∨
    ∃ c ∈ o.calls, c.status = some e := by
  cases call with
  | get_display_info info =>
    cases info with
    | none =>
      simp only [invoke, arpcap_get_display_info, Option.some.injEq] at hinv
      subst hinv
      simp only [Option.some.injEq] at hs
      exact Or.inl ⟨rfl, Or.inl hs.symm⟩
    | some i =>
      by_cases hd : p.getDisplayInfo.1 = NO_ERROR
      · simp [invoke, arpcap_get_display_info, getMainDisplayInfo, hd] at hinv
        subst hinv
        simp only [Option.some.injEq] at hs
        exact absurd hs.symm hne
      · simp only [invoke, arpcap_get_display_info_fails p i hd, Option.some.injEq] at hinv
        subst hinv
        simp only [Option.some.injEq] at hs
        subst hs
        exact Or.inr ⟨PlatformCall.getDisplayInfo p.getDisplayInfo.1 p.getDisplayInfo.2,
          by simp, rfl⟩
  | create paddingTop paddingBottom width height cb =>
    obtain ⟨r, hr, hcases⟩ := arpcap_create_total p sCap paddingTop paddingBottom width height cb
    simp only [invoke, hr, Option.map_some', Option.some.injEq] at hinv
    subst hinv
    simp only [Option.some.injEq] at hs
    subst hs
    rcases hcases with ⟨h1, h2⟩ | ⟨-, h2⟩
    · exact Or.inl ⟨h1, h2⟩
    · rcases h2 with h2 | h2
      · exact absurd h2 hne
      · exact Or.inr h2
  | destroy =>
    simp only [invoke, Option.map_eq_some'] at hinv
    obtain ⟨r, -, rfl⟩ := hinv
    simp at hs
  | acquire_frame_buffer fb =>
    cases fb with
    | none =>
      simp only [invoke, arpcap_acquire_frame_buffer, Option.map_some', Option.some.injEq] at hinv
      subst hinv
      simp only [Option.some.injEq] at hs
      exact Or.inl ⟨rfl, Or.inl hs.symm⟩
    | some b =>
      cases sCap with
      | none => simp [invoke, arpcap_acquire_frame_buffer] at hinv
      | some s =>
        cases hc : s.mCpuConsumer with
        | none =>
          simp [invoke, arpcap_acquire_frame_buffer, ScreenCapture.acquireFrameBuffer, hc] at hinv
        | some c =>
          simp only [invoke, arpcap_acquire_frame_buffer_eq p s c b hc, Option.map_some',
            Option.some.injEq] at hinv
          subst hinv
          simp only [Option.some.injEq] at hs
          subst hs
          exact Or.inr ⟨PlatformCall.lockNextBuffer (p.lockNextBuffer c s.mBuffer).1,
            by simp, rfl⟩
  | release_frame_buffer =>
    simp only [invoke, Option.map_eq_some'] at hinv
    obtain ⟨r, -, rfl⟩ := hinv
    simp at hs

/-- C3, amended, at a concrete call: the status `-32` of a failing `getDisplayInfo`
is the one `arpcap_get_display_info` returns. -/
theorem C3_status_rejected_or_forwarded_witness :
    ((⟨some (-32), none,
        [PlatformCall.getBuiltInDisplay, PlatformCall.getDisplayInfo (-32) ⟨0, 0, 0⟩]⟩ :
        Outcome).calls = [] ∧ ((-32 : status_t) = BAD_VALUE ∨ (-32 : status_t) = ALREADY_EXISTS)) ∨
    ∃ c ∈ (⟨some (-32), none,
        [PlatformCall.getBuiltInDisplay, PlatformCall.getDisplayInfo (-32) ⟨0, 0, 0⟩]⟩ :
        Outcome).calls, c.status = some (-32) :=
  C3_status_rejected_or_forwarded exFailing none (ApiCall.get_display_info (some exInfo))
    ⟨some (-32), none,
      [PlatformCall.getBuiltInDisplay, PlatformCall.getDisplayInfo (-32) ⟨0, 0, 0⟩]⟩
    (-32) rfl rfl (by decide)

/-- The status-returning calls have defined behaviour in every session state, except that
`arpcap_acquire_frame_buffer` with a non-null `fb` needs a session with a consumer. -/
theorem invoke_defined (p : Platform) (sCap : Option ScreenCapture) :
    (∀ info, (invoke p sCap (ApiCall.get_display_info info)).isSome) ∧
    (∀ paddingTop paddingBottom width height cb,
      (invoke p sCap (ApiCall.create paddingTop paddingBottom width height cb)).isSome) ∧
    (invoke p sCap (ApiCall.acquire_frame_buffer none)).isSome ∧
    (∀ s c fb, sCap = some s → s.mCpuConsumer = some c →
      (invoke p sCap (ApiCall.acquire_frame_buffer (some fb))).isSome) := by
  refine ⟨fun info => rfl, ?_, rfl, ?_⟩
  · intro paddingTop paddingBottom width height cb
    obtain ⟨r, hr, -⟩ := arpcap_create_total p sCap paddingTop paddingBottom width height cb
    simp [invoke, hr]
  · intro s c fb hs hc
    subst hs
    simp [invoke, arpcap_acquire_frame_buffer_eq p s c fb hc]

/-! ## A failing platform call is propagated and nothing is written -/

/-- C4: for every status `e` other than `NO_ERROR`: (1) when `getDisplayInfo`
returns `e`, `arpcap_get_display_info(info)` with `info` non-null returns `e` and
`*info` is unchanged; (2) when `lockNextBuffer` returns `e`,
`arpcap_acquire_frame_buffer(fb)` with `fb` non-null and a session with a consumer
returns `e` and `*fb` is unchanged; (3) when `getDisplayInfo`, or after it
`initCheck`, returns `e` during an `arpcap_create` that passed its checks,
`arpcap_create` returns `e` and the global session pointer is null afterwards, so
that a following `arpcap_create` is not turned away with `ALREADY_EXISTS` by the
session check (it either is rejected with `BAD_VALUE` or reaches the platform). -/
theorem C4_failure_propagated (e : status_t) (he : e ≠ NO_ERROR) :
    (∀ (p : Platform) (info : ARPDisplayInfo), p.getDisplayInfo.1 = e →
      ∃ t, arpcap_get_display_info p (some info) = (e, some info, t)) ∧
    (∀ (p : Platform) (s : ScreenCapture) (c : CpuConsumer) (fb : ARPFrameBuffer),
      s.mCpuConsumer = some c → (p.lockNextBuffer c s.mBuffer).1 = e →
      ∃ s1 t, arpcap_acquire_frame_buffer p (some s) (some fb) = some (e, some fb, some s1, t)) ∧
    (∀ (p : Platform) (paddingTop paddingBottom width height : Nat) (cb : arp_callback),
      arpcap_create_rejects paddingTop paddingBottom width height cb = false →
      (p.getDisplayInfo.1 = e ∨ (p.getDisplayInfo.1 = NO_ERROR ∧ p.initCheck = e)) →
      ∃ sCap1 t,
        arpcap_create p none paddingTop paddingBottom width height cb = some (e, sCap1, t) ∧
        sCap1 = none ∧
        ∀ (p2 : Platform) (paddingTop2 paddingBottom2 width2 height2 : Nat) (cb2 : arp_callback),
          ∃ r, arpcap_create p2 sCap1 paddingTop2 paddingBottom2 width2 height2 cb2 = some r ∧
            (r.1 = ALREADY_EXISTS → r.2.2 ≠ [])) := by
  refine ⟨?_, ?_, ?_⟩
  · intro p info hp
    subst hp
    exact ⟨_, arpcap_get_display_info_fails p info he⟩
  · intro p s c fb hc hp
    subst hp
    refine ⟨{ s with
                mBuffer := (p.lockNextBuffer c s.mBuffer).2.1
                mCpuConsumer := some (p.lockNextBuffer c s.mBuffer).2.2 },
      [PlatformCall.lockNextBuffer (p.lockNextBuffer c s.mBuffer).1], ?_⟩
    rw [arpcap_acquire_frame_buffer_eq p s c fb hc]
    simp [he]
  · intro p paddingTop paddingBottom width height cb hr hp
    have hfollow : ∀ (p2 : Platform) (paddingTop2 paddingBottom2 width2 height2 : Nat)
        (cb2 : arp_callback),
        ∃ r, arpcap_create p2 none paddingTop2 paddingBottom2 width2 height2 cb2 = some r ∧
          (r.1 = ALREADY_EXISTS → r.2.2 ≠ []) := by
      intro p2 paddingTop2 paddingBottom2 width2 height2 cb2
      cases hr2 : arpcap_create_rejects paddingTop2 paddingBottom2 width2 height2 cb2 with
      | true =>
        refine ⟨_, arpcap_create_rejected p2 _ _ _ _ _ hr2, ?_⟩
        intro h
        exact absurd h (by decide)
      | false =>
        by_cases hd : p2.getDisplayInfo.1 = NO_ERROR
        · by_cases hi : p2.initCheck = NO_ERROR
          · exact ⟨_, arpcap_create_succeeds p2 _ _ _ _ _ hr2 hd hi, fun _ => by simp⟩
          · exact ⟨_, arpcap_create_initCheck_fails p2 _ _ _ _ _ hr2 hd hi, fun _ => by simp⟩
        · exact ⟨_, arpcap_create_getDisplayInfo_fails p2 _ _ _ _ _ hr2 hd, fun _ => by simp⟩
    rcases hp with hp | ⟨hd, hp⟩
    · subst hp
      exact ⟨none, _, arpcap_create_getDisplayInfo_fails p _ _ _ _ _ hr he, rfl, hfollow⟩
    · subst hp
      exact ⟨none, _, arpcap_create_initCheck_fails p _ _ _ _ _ hr hd he, rfl, hfollow⟩

/-- C4 at the status `-32`: the three calls return `-32`, the caller's records keep
their contents and no session is left. -/
theorem C4_failure_propagated_witness :
    (∃ t, arpcap_get_display_info exFailing (some exInfo) = (-32, some exInfo, t)) ∧
    (∃ s1 t, arpcap_acquire_frame_buffer exFailing (some exSession) (some exFb) =
      some (-32, some exFb, some s1, t)) ∧
    (∃ sCap1 t, arpcap_create exFailing none 0 0 720 1280 (some 1) = some (-32, sCap1, t) ∧
      sCap1 = none ∧
      ∀ (p2 : Platform) (paddingTop2 paddingBottom2 width2 height2 : Nat) (cb2 : arp_callback),
        ∃ r, arpcap_create p2 sCap1 paddingTop2 paddingBottom2 width2 height2 cb2 = some r ∧
          (r.1 = ALREADY_EXISTS → r.2.2 ≠ [])) ∧
    (∃ sCap1 t, arpcap_create exInitFailing none 0 0 720 1280 (some 1) = some (-32, sCap1, t) ∧
      sCap1 = none ∧
      ∀ (p2 : Platform) (paddingTop2 paddingBottom2 width2 height2 : Nat) (cb2 : arp_callback),
        ∃ r, arpcap_create p2 sCap1 paddingTop2 paddingBottom2 width2 height2 cb2 = some r ∧
          (r.1 = ALREADY_EXISTS → r.2.2 ≠ [])) :=
  ⟨(C4_failure_propagated (-32) (by decide)).1 exFailing exInfo rfl,
   (C4_failure_propagated (-32) (by decide)).2.1 exFailing exSession ⟨3, []⟩ exFb rfl rfl,
   (C4_failure_propagated (-32) (by decide)).2.2 exFailing 0 0 720 1280 (some 1) rfl
     (Or.inl rfl),
   (C4_failure_propagated (-32) (by decide)).2.2 exInitFailing 0 0 720 1280 (some 1) rfl
     (Or.inr ⟨rfl, rfl⟩)⟩

/-! ## The projection computed by `createDisplay` -/

/-- C5: when `getDisplayInfo` reports the display `(w, h, orientation)` with
`NO_ERROR` and `initCheck` succeeds, `createDisplay` works with
`(sw, sh, dw, dh) = (h, w, height, width)` if the orientation is
`DISPLAY_ORIENTATION_90` or `DISPLAY_ORIENTATION_270` and `(w, h, width, height)`
otherwise (the macro `SWAP` exchanges its two variables for all values); it sets the
consumer default buffer size to `(dw, dh)` and calls `setDisplayProjection` with
orientation `DISPLAY_ORIENTATION_0`, layer-stack rectangle
`(0, paddingTop, sw, (sh - paddingBottom) mod 2^32)` and visible rectangle
`(0, 0, dw, dh)`. The platform calls made after those of the initial
`destroyDisplay` are exactly the listed ones. This holds for all natural numbers, in
particular for all 32-bit unsigned values. -/
theorem C5_createDisplay_projection (p : Platform) (s s0 : ScreenCapture)
    (t0 : List PlatformCall) (paddingTop paddingBottom width height : Nat) (cb : arp_callback)
    (w h orientation : Nat)
    (h0 : s.destroyDisplay p = some (s0, t0))
    (hd : p.getDisplayInfo = (NO_ERROR, DisplayInfo.mk w h orientation))
    (hi : p.initCheck = NO_ERROR) :
    (∀ a b : Nat, SWAP a b = (b, a)) ∧
    ∃ sw sh dw dh : Nat,
      (sw, sh, dw, dh) =
        (if orientation = DISPLAY_ORIENTATION_90 ∨ orientation = DISPLAY_ORIENTATION_270
         then (h, w, height, width) else (w, h, width, height)) ∧
      ∃ s2, s.createDisplay p paddingTop paddingBottom width height cb =
        some (NO_ERROR, s2,
          t0 ++
          [PlatformCall.getBuiltInDisplay,
           PlatformCall.getDisplayInfo NO_ERROR (DisplayInfo.mk w h orientation),
           PlatformCall.initCheck NO_ERROR,
           PlatformCall.createDisplay NAME true,
           PlatformCall.createBufferQueue,
           PlatformCall.setDefaultBufferSize dw dh,
           PlatformCall.setDefaultBufferFormat PIXEL_FORMAT_RGBA_8888,
           PlatformCall.newCpuConsumer MAX_LOCKED_BUFFERS,
           PlatformCall.setName NAME,
           PlatformCall.setFrameAvailableListener (FrameProxy.mk cb),
           PlatformCall.openGlobalTransaction,
           PlatformCall.setDisplaySurface,
           PlatformCall.setDisplayProjection DISPLAY_ORIENTATION_0
             (Rect.mk 0 paddingTop sw (Int.toNat (((sh : Int) - (paddingBottom : Int)) % 2 ^ 32)))
             (Rect.mk 0 0 dw dh),
           PlatformCall.setDisplayLayerStack 0,
           PlatformCall.closeGlobalTransaction]) := by
  refine ⟨SWAP_exchanges, ?_⟩
  have hd1 : p.getDisplayInfo.1 = NO_ERROR := by rw [hd]
  have hd2 : p.getDisplayInfo.2 = DisplayInfo.mk w h orientation := by rw [hd]
  have hc := createDisplay_succeeds p s s0 t0 paddingTop paddingBottom width height cb h0 hd1 hi
  have hsub : ∀ a b : Nat, u32_sub a b = Int.toNat (((a : Int) - (b : Int)) % 2 ^ 32) := by
    intro a b
    rw [← u32_sub_eq a b, Int.toNat_natCast]
  rw [hd1, hd2, projectionSizes_eq] at hc
  by_cases ho : orientation = DISPLAY_ORIENTATION_90 ∨ orientation = DISPLAY_ORIENTATION_270
  · refine ⟨h, w, height, width, by simp [ho],
      { s0 with
        mFrameProxy := some (FrameProxy.mk cb)
        mDisplay := p.createDisplay
        mBufferProducer := some ()
        mBufferConsumer := some ()
        mCpuConsumer := some (CpuConsumer.mk MAX_LOCKED_BUFFERS []) }, ?_⟩
    rw [hc]
    simp [ho, hsub, Rect.ofSize]
  · refine ⟨w, h, width, height, by simp [ho],
      { s0 with
        mFrameProxy := some (FrameProxy.mk cb)
        mDisplay := p.createDisplay
        mBufferProducer := some ()
        mBufferConsumer := some ()
        mCpuConsumer := some (CpuConsumer.mk MAX_LOCKED_BUFFERS []) }, ?_⟩
    rw [hc]
    simp [ho, hsub, Rect.ofSize]

/-- C5 on a display of 1080 x 1920 rotated by 90 degrees, for a request of
720 x 1280 with paddings 10 and 20: source 1920 x 1080, destination 1280 x 720,
layer-stack rectangle `(0, 10, 1920, 1060)`. -/
theorem C5_createDisplay_projection_witness :
    (∀ a b : Nat, SWAP a b = (b, a)) ∧
    ∃ sw sh dw dh : Nat,
      (sw, sh, dw, dh) =
        (if (1 : Nat) = DISPLAY_ORIENTATION_90 ∨ (1 : Nat) = DISPLAY_ORIENTATION_270
         then (1920, 1080, 1280, 720) else (1080, 1920, 720, 1280)) ∧
      ∃ s2, (ScreenCapture.new exFrame1).createDisplay
          { exPlatform with getDisplayInfo := (NO_ERROR, ⟨1080, 1920, 1⟩) }
          10 20 720 1280 (some 1) =
        some (NO_ERROR, s2,
          [] ++
          [PlatformCall.getBuiltInDisplay,
           PlatformCall.getDisplayInfo NO_ERROR (DisplayInfo.mk 1080 1920 1),
           PlatformCall.initCheck NO_ERROR,
           PlatformCall.createDisplay NAME true,
           PlatformCall.createBufferQueue,
           PlatformCall.setDefaultBufferSize dw dh,
           PlatformCall.setDefaultBufferFormat PIXEL_FORMAT_RGBA_8888,
           PlatformCall.newCpuConsumer MAX_LOCKED_BUFFERS,
           PlatformCall.setName NAME,
           PlatformCall.setFrameAvailableListener (FrameProxy.mk (some 1)),
           PlatformCall.openGlobalTransaction,
           PlatformCall.setDisplaySurface,
           PlatformCall.setDisplayProjection DISPLAY_ORIENTATION_0
             (Rect.mk 0 10 sw (Int.toNat (((sh : Int) - ((20 : Nat) : Int)) % 2 ^ 32)))
             (Rect.mk 0 0 dw dh),
           PlatformCall.setDisplayLayerStack 0,
           PlatformCall.closeGlobalTransaction]) :=
  C5_createDisplay_projection { exPlatform with getDisplayInfo := (NO_ERROR, ⟨1080, 1920, 1⟩) }
    (ScreenCapture.new exFrame1) (ScreenCapture.new exFrame1) [] 10 20 720 1280 (some 1)
    1080 1920 1 rfl rfl rfl

/-! ## `destroyDisplay` releases the locked frame buffer -/

/-- C7: for a session with an active display (display token and CPU consumer set),
`destroyDisplay` has defined behaviour; if the tracked buffer is locked
(`mBuffer.data` non-null) it calls `unlockBuffer` on that buffer exactly once, on the
consumer the session still holds (the call is made by `releaseFrameBuffer`, which
keeps the consumer, before the references are dropped), and if it is not locked it
makes no `unlockBuffer` call; in both cases `mBuffer.data` is null afterwards and
the display, producer, consumer, CPU-consumer and frame-proxy references are null.
Moreover `releaseFrameBuffer` and `destroyDisplay` are idempotent: after either one
returned, a second call (whatever the platform) makes no platform call and changes
no field. -/
theorem C7_destroyDisplay_releases (p p2 : Platform) (s : ScreenCapture) :
    (∀ (d : Nat) (c : CpuConsumer), s.mDisplay = some d → s.mCpuConsumer = some c →
      ∃ s1 t, s.destroyDisplay p = some (s1, t) ∧
        (s.mBuffer.data ≠ 0 →
          s.releaseFrameBuffer p =
            some ({ s with
                      mCpuConsumer := some (p.unlockBuffer c s.mBuffer)
                      mBuffer := { s.mBuffer with data := 0 } },
                  [PlatformCall.unlockBuffer s.mBuffer]) ∧
          t = [PlatformCall.destroyDisplay d, PlatformCall.unlockBuffer s.mBuffer]) ∧
        (s.mBuffer.data = 0 → t = [PlatformCall.destroyDisplay d]) ∧
        s1.mBuffer.data = 0 ∧ s1.mDisplay = none ∧ s1.mBufferProducer = none ∧
        s1.mBufferConsumer = none ∧ s1.mCpuConsumer = none ∧ s1.mFrameProxy = none) ∧
    (∀ s1 t, s.releaseFrameBuffer p = some (s1, t) → s1.releaseFrameBuffer p2 = some (s1, [])) ∧
    (∀ s1 t, s.destroyDisplay p = some (s1, t) → s1.destroyDisplay p2 = some (s1, [])) := by
  refine ⟨?_, fun s1 t h => releaseFrameBuffer_twice p p2 s s1 t h,
    fun s1 t h => destroyDisplay_twice p p2 s s1 t h⟩
  intro d c hd hc
  have hrel := releaseFrameBuffer_defined p s c hc
  by_cases hdata : s.mBuffer.data = 0
  · refine ⟨{ s with
                mBufferProducer := none
                mBufferConsumer := none
                mCpuConsumer := none
                mDisplay := none
                mFrameProxy := none },
      [PlatformCall.destroyDisplay d], ?_, fun h => absurd hdata h, fun _ => rfl,
      hdata, rfl, rfl, rfl, rfl, rfl⟩
    simp [hdata] at hrel
    simp [ScreenCapture.destroyDisplay, hd, hrel]
  · refine ⟨{ s with
                mBuffer := { s.mBuffer with data := 0 }
                mBufferProducer := none
                mBufferConsumer := none
                mCpuConsumer := none
                mDisplay := none
                mFrameProxy := none },
      [PlatformCall.destroyDisplay d, PlatformCall.unlockBuffer s.mBuffer], ?_, ?_,
      fun h => absurd h hdata, rfl, rfl, rfl, rfl, rfl, rfl⟩
    · simp [hdata] at hrel
      simp [ScreenCapture.destroyDisplay, hd, hrel]
    · intro _
      simp [hdata] at hrel
      exact ⟨hrel, rfl⟩

/-- C7 on the session `exLocked`, whose buffer `exFrame1` is locked: one
`unlockBuffer exFrame1` after the `destroyDisplay` of the token, and second calls do
nothing. -/
theorem C7_destroyDisplay_releases_witness :
    (∃ s1 t, exLocked.destroyDisplay exPlatform = some (s1, t) ∧
        (exLocked.mBuffer.data ≠ 0 →
          exLocked.releaseFrameBuffer exPlatform =
            some ({ exLocked with
                      mCpuConsumer := some (exPlatform.unlockBuffer ⟨3, [exFrame1]⟩ exLocked.mBuffer)
                      mBuffer := { exLocked.mBuffer with data := 0 } },
                  [PlatformCall.unlockBuffer exLocked.mBuffer]) ∧
          t = [PlatformCall.destroyDisplay 1, PlatformCall.unlockBuffer exLocked.mBuffer]) ∧
        (exLocked.mBuffer.data = 0 → t = [PlatformCall.destroyDisplay 1]) ∧
        s1.mBuffer.data = 0 ∧ s1.mDisplay = none ∧ s1.mBufferProducer = none ∧
        s1.mBufferConsumer = none ∧ s1.mCpuConsumer = none ∧ s1.mFrameProxy = none) ∧
    ({ exLocked with mBuffer := { exLocked.mBuffer with data := 0 } }
      : ScreenCapture).releaseFrameBuffer exFailing =
      some ({ exLocked with mBuffer := { exLocked.mBuffer with data := 0 } }, []) ∧
    (ScreenCapture.new exFrame1 |>.destroyDisplay exFailing) =
      some (ScreenCapture.new exFrame1, []) :=
  ⟨(C7_destroyDisplay_releases exPlatform exFailing exLocked).1 1 ⟨3, [exFrame1]⟩ rfl rfl,
   (C7_destroyDisplay_releases exPlatform exFailing exLocked).2.1
     { exLocked with mBuffer := { exLocked.mBuffer with data := 0 } }
     [PlatformCall.unlockBuffer exLocked.mBuffer] rfl,
   (C7_destroyDisplay_releases exPlatform exFailing (ScreenCapture.new exFrame1)).2.2
     (ScreenCapture.new exFrame1) [] rfl⟩

/-! ## How many buffers can be locked at a time -/

theorem lockNextBuffer_bounded (frame : Option LockedBuffer) (c : CpuConsumer)
    (b : LockedBuffer)
    (h : c.maxLockedBuffers = MAX_LOCKED_BUFFERS ∧ c.locked.length ≤ MAX_LOCKED_BUFFERS) :
    (CpuConsumer.lockNextBuffer frame c b).2.2.maxLockedBuffers = MAX_LOCKED_BUFFERS ∧
    (CpuConsumer.lockNextBuffer frame c b).2.2.locked.length ≤ MAX_LOCKED_BUFFERS := by
  unfold CpuConsumer.lockNextBuffer
  by_cases hlt : c.locked.length < c.maxLockedBuffers
  · cases frame with
    | none => simpa [hlt] using h
    | some f =>
      simp only [hlt, if_true, List.length_cons]
      exact ⟨h.1, by rw [← h.1]; exact hlt⟩
  · simpa [hlt] using h

theorem unlockBuffer_bounded (c : CpuConsumer) (b : LockedBuffer)
    (h : c.maxLockedBuffers = MAX_LOCKED_BUFFERS ∧ c.locked.length ≤ MAX_LOCKED_BUFFERS) :
    (CpuConsumer.unlockBuffer c b).maxLockedBuffers = MAX_LOCKED_BUFFERS ∧
    (CpuConsumer.unlockBuffer c b).locked.length ≤ MAX_LOCKED_BUFFERS := by
  unfold CpuConsumer.unlockBuffer
  exact ⟨h.1, le_trans (List.length_eraseP_le _) h.2⟩

theorem invoke_bounded (p : Platform) (frame : Option LockedBuffer)
    (sCap : Option ScreenCapture) (call : ApiCall) (o : Outcome)
    (hinv : invoke (p.withConsumer frame) sCap call = some o) (hb : ConsumerBounded sCap) :
    ConsumerBounded o.sCap := by
  cases call with
  | get_display_info info =>
    simp only [invoke, Option.some.injEq] at hinv
    subst hinv
    exact hb
  | create paddingTop paddingBottom width height cb =>
    cases sCap with
    | some s =>
      simp only [invoke, arpcap_create, Option.map_some', Option.some.injEq] at hinv
      subst hinv
      exact hb
    | none =>
      cases hr : arpcap_create_rejects paddingTop paddingBottom width height cb with
      | true =>
        simp only [invoke, arpcap_create_rejected _ _ _ _ _ _ hr, Option.map_some',
          Option.some.injEq] at hinv
        subst hinv
        exact hb
      | false =>
        by_cases hd : (p.withConsumer frame).getDisplayInfo.1 = NO_ERROR
        · by_cases hi : (p.withConsumer frame).initCheck = NO_ERROR
          · simp only [invoke, arpcap_create_succeeds _ _ _ _ _ _ hr hd hi, Option.map_some',
              Option.some.injEq] at hinv
            subst hinv
            intro s c hs hc
            simp only [Option.some.injEq] at hs
            subst hs
            simp only [Option.some.injEq] at hc
            subst hc
            exact ⟨rfl, Nat.zero_le _⟩
          · simp only [invoke, arpcap_create_initCheck_fails _ _ _ _ _ _ hr hd hi,
              Option.map_some', Option.some.injEq] at hinv
            subst hinv
            exact hb
        · simp only [invoke, arpcap_create_getDisplayInfo_fails _ _ _ _ _ _ hr hd,
            Option.map_some', Option.some.injEq] at hinv
          subst hinv
          exact hb
  | destroy =>
    cases sCap with
    | none =>
      simp only [invoke, arpcap_destroy, Option.map_some', Option.some.injEq] at hinv
      subst hinv
      exact hb
    | some s =>
      simp only [invoke, arpcap_destroy, Option.map_eq_some'] at hinv
      obtain ⟨r, hr, rfl⟩ := hinv
      have hnone : r.1 = none := by
        cases h1 : s.destroyDisplay (p.withConsumer frame) with
        | none => simp [h1] at hr
        | some x =>
          obtain ⟨s1, t1⟩ := x
          cases h2 : s1.delete (p.withConsumer frame) with
          | none => simp [h1, h2] at hr
          | some t2 =>
            simp [h1, h2] at hr
            rw [← hr]
      intro s' c hs
      rw [hnone] at hs
      exact absurd hs (by simp)
  | acquire_frame_buffer fb =>
    cases fb with
    | none =>
      simp only [invoke, arpcap_acquire_frame_buffer, Option.map_some', Option.some.injEq] at hinv
      subst hinv
      exact hb
    | some b =>
      cases sCap with
      | none => simp [invoke, arpcap_acquire_frame_buffer] at hinv
      | some s =>
        cases hc : s.mCpuConsumer with
        | none =>
          simp [invoke, arpcap_acquire_frame_buffer, ScreenCapture.acquireFrameBuffer, hc] at hinv
        | some c =>
          simp only [invoke, arpcap_acquire_frame_buffer_eq _ s c b hc, Option.map_some',
            Option.some.injEq] at hinv
          subst hinv
          intro s' c' hs hc'
          simp only [Option.some.injEq] at hs
          subst hs
          simp only [Option.some.injEq] at hc'
          subst hc'
          exact lockNextBuffer_bounded frame c s.mBuffer (hb s c rfl hc)
  | release_frame_buffer =>
    cases sCap with
    | none => simp [invoke, arpcap_release_frame_buffer] at hinv
    | some s =>
      cases hc : s.mCpuConsumer with
      | none =>
        by_cases hdata : s.mBuffer.data = 0
        · simp [invoke, arpcap_release_frame_buffer, ScreenCapture.releaseFrameBuffer,
            hdata] at hinv
          subst hinv
          exact hb
        · simp [invoke, arpcap_release_frame_buffer, ScreenCapture.releaseFrameBuffer,
            hdata, hc] at hinv
      | some c =>
        have hrel := releaseFrameBuffer_defined (p.withConsumer frame) s c hc
        by_cases hdata : s.mBuffer.data = 0
        · simp [hdata] at hrel
          simp [invoke, arpcap_release_frame_buffer, hrel] at hinv
          subst hinv
          exact hb
        · simp [hdata] at hrel
          simp [invoke, arpcap_release_frame_buffer, hrel] at hinv
          subst hinv
          intro s' c' hs hc'
          simp only [Option.some.injEq] at hs
          subst hs
          simp only [Option.some.injEq] at hc'
          subst hc'
          exact unlockBuffer_bounded c s.mBuffer (hb s c rfl hc)

theorem run_bounded (calls : List ((Platform × Option LockedBuffer) × ApiCall)) :
    ∀ (sCap st : Option ScreenCapture), ConsumerBounded sCap →
      run (calls.map fun x => (x.1.1.withConsumer x.1.2, x.2)) sCap = some st →
      ConsumerBounded st := by
  induction calls with
  | nil =>
    intro sCap st hb hrun
    simp only [List.map_nil, run, Option.some.injEq] at hrun
    subst hrun
    exact hb
  | cons x rest ih =>
    intro sCap st hb hrun
    simp only [List.map_cons, run] at hrun
    cases hinv : invoke (x.1.1.withConsumer x.1.2) sCap x.2 with
    | none => simp [hinv] at hrun
    | some o =>
      simp only [hinv] at hrun
      exact ih o.sCap st (invoke_bounded x.1.1 x.1.2 sCap x.2 o hinv hb) hrun

/-- C6, as stated, fails: after `arpcap_create`, two `arpcap_acquire_frame_buffer`
calls in a row both return `NO_ERROR` although no buffer was unlocked in between
(the only platform call of the second is `lockNextBuffer`), and in the state
reached two buffers are locked through the consumer. -/
theorem C6_counterexample :
    arpcap_create (exPlatform.withConsumer none) none 0 0 720 1280 (some 1) =
      some (NO_ERROR, some exSession,
        [PlatformCall.getBuiltInDisplay,
         PlatformCall.getDisplayInfo NO_ERROR exDisplay,
         PlatformCall.initCheck NO_ERROR,
         PlatformCall.createDisplay NAME true,
         PlatformCall.createBufferQueue,
         PlatformCall.setDefaultBufferSize 720 1280,
         PlatformCall.setDefaultBufferFormat PIXEL_FORMAT_RGBA_8888,
         PlatformCall.newCpuConsumer MAX_LOCKED_BUFFERS,
         PlatformCall.setName NAME,
         PlatformCall.setFrameAvailableListener (FrameProxy.mk (some 1)),
         PlatformCall.openGlobalTransaction,
         PlatformCall.setDisplaySurface,
         PlatformCall.setDisplayProjection DISPLAY_ORIENTATION_0
           (Rect.mk 0 0 1080 1920) (Rect.mk 0 0 720 1280),
         PlatformCall.setDisplayLayerStack 0,
         PlatformCall.closeGlobalTransaction]) ∧
    arpcap_acquire_frame_buffer (exPlatform.withConsumer (some exFrame1)) (some exSession)
        (some exFb) =
      some (NO_ERROR, some ⟨4096, 720, 1280, 1, 720, 1000, 1⟩, some exLocked,
        [PlatformCall.lockNextBuffer NO_ERROR]) ∧
    arpcap_acquire_frame_buffer (exPlatform.withConsumer (some exFrame2)) (some exLocked)
        (some exFb) =
      some (NO_ERROR, some ⟨8192, 720, 1280, 1, 720, 2000, 2⟩, some exLocked2,
        [PlatformCall.lockNextBuffer NO_ERROR]) ∧
    ReachableWithConsumer (some exLocked2) ∧
    lockedBuffers (some exLocked2) = 2 ∧
    ¬ (∀ sCap, ReachableWithConsumer sCap → lockedBuffers sCap ≤ 1) := by
  have hreach : ReachableWithConsumer (some exLocked2) := ⟨exThreeAcquires.take 3, rfl⟩
  refine ⟨rfl, rfl, rfl, hreach, rfl, ?_⟩
  intro h
  exact absurd (h (some exLocked2) hreach) (by decide)

/-- C6, amended: modelling the CPU consumer as the platform object this code
constructs (with bound `MAX_LOCKED_BUFFERS = 3`), in every state reachable by any
sequence of calls of the C interface the number of buffers locked through
`lockNextBuffer` and not yet passed to `unlockBuffer` is at most
`MAX_LOCKED_BUFFERS`, that is 3. -/
theorem C6_locked_at_most_max (sCap : Option ScreenCapture)
    (h : ReachableWithConsumer sCap) :
    lockedBuffers sCap ≤ MAX_LOCKED_BUFFERS ∧ MAX_LOCKED_BUFFERS = 3 := by
  obtain ⟨calls, hrun⟩ := h
  have hinit : ConsumerBounded none := by
    intro s c hs
    exact absurd hs (by simp)
  have hb := run_bounded calls none sCap hinit hrun
  refine ⟨?_, rfl⟩
  cases sCap with
  | none => exact Nat.zero_le _
  | some s =>
    cases hc : s.mCpuConsumer with
    | none => simp [lockedBuffers, hc]
    | some c =>
      simp only [lockedBuffers, hc]
      exact (hb s c rfl hc).2

/-- C6, amended, at the state reached by three acquires in a row: three buffers
are locked there, which meets the bound. -/
theorem C6_locked_at_most_max_witness :
    ReachableWithConsumer (some exLocked3) ∧ lockedBuffers (some exLocked3) = 3 ∧
    lockedBuffers (some exLocked3) ≤ MAX_LOCKED_BUFFERS ∧ MAX_LOCKED_BUFFERS = 3 :=
  ⟨⟨exThreeAcquires, rfl⟩, rfl, C6_locked_at_most_max (some exLocked3) ⟨exThreeAcquires, rfl⟩⟩

/-! ## The argument check of `arpcap_create` -/

theorem arpcap_create_rejects_iff (paddingTop paddingBottom width height : Nat)
    (cb : arp_callback) :
    arpcap_create_rejects paddingTop paddingBottom width height cb = true ↔
      ((width = 0 ∨ height = 0 ∨ cb = none) ∧ (paddingTop + paddingBottom) % 2 ^ 32 < height) := by
  cases cb <;> simp [arpcap_create_rejects, u32_add, U32]

/-- C8, the code at two inputs it accepts: the argument check of `arpcap_create`
(lines 244-248) tests `(width == 0 || height == 0 || cb == nullptr) &&
(paddingTop + paddingBottom < height)`, so it lets through what it sets out to turn
away. `arpcap_create(0, 2000, 720, 1280, cb)` on a display of 1080 x 1920 passes the
check and returns `NO_ERROR`, yet `paddingBottom = 2000` exceeds the source height
1920 and the bottom of the layer-stack rectangle handed to the compositor is the
wrapped value `4294967216 = 2^32 - 80`; and `arpcap_create(0, 0, 0, 0, nullptr)`
passes the check and returns `NO_ERROR` although width and height are 0 and the
callback is null. -/
theorem C8_check_lets_bad_arguments_through :
    arpcap_create_rejects 0 2000 720 1280 (some 1) = false ∧
    arpcap_create exPlatform none 0 2000 720 1280 (some 1) =
      some (NO_ERROR, some exSession,
        [PlatformCall.getBuiltInDisplay,
         PlatformCall.getDisplayInfo NO_ERROR ⟨1080, 1920, 0⟩,
         PlatformCall.initCheck NO_ERROR,
         PlatformCall.createDisplay NAME true,
         PlatformCall.createBufferQueue,
         PlatformCall.setDefaultBufferSize 720 1280,
         PlatformCall.setDefaultBufferFormat PIXEL_FORMAT_RGBA_8888,
         PlatformCall.newCpuConsumer MAX_LOCKED_BUFFERS,
         PlatformCall.setName NAME,
         PlatformCall.setFrameAvailableListener (FrameProxy.mk (some 1)),
         PlatformCall.openGlobalTransaction,
         PlatformCall.setDisplaySurface,
         PlatformCall.setDisplayProjection DISPLAY_ORIENTATION_0
           (Rect.mk 0 0 1080 4294967216) (Rect.mk 0 0 720 1280),
         PlatformCall.setDisplayLayerStack 0,
         PlatformCall.closeGlobalTransaction]) ∧
    ¬ ((2000 : Nat) ≤ 1920) ∧
    arpcap_create_rejects 0 0 0 0 none = false ∧
    (arpcap_create exPlatform none 0 0 0 0 none).map (fun r => r.1) = some NO_ERROR := by
  refine ⟨rfl, rfl, by decide, rfl, rfl⟩

/-- C9: with no session, `arpcap_create` returns `BAD_VALUE` without any platform
call and without creating a session if and only if (`width = 0` or `height = 0` or
`cb` is null) and `(paddingTop + paddingBottom) mod 2^32 < height`; in every other
case it goes on to `createDisplay` on a new `ScreenCapture` (which always makes
platform calls) and returns its status, keeping the session exactly when that
status is `NO_ERROR`. -/
theorem C9_rejection_condition (p : Platform) (paddingTop paddingBottom width height : Nat)
    (cb : arp_callback) :
    (arpcap_create p none paddingTop paddingBottom width height cb = some (BAD_VALUE, none, []) ↔
      ((width = 0 ∨ height = 0 ∨ cb = none) ∧
        (paddingTop + paddingBottom) % 2 ^ 32 < height)) ∧
    (¬ ((width = 0 ∨ height = 0 ∨ cb = none) ∧
        (paddingTop + paddingBottom) % 2 ^ 32 < height) →
      ∃ res s t,
        (ScreenCapture.new p.uninitialized).createDisplay p
          paddingTop paddingBottom width height cb = some (res, s, t) ∧
        t ≠ [] ∧
        arpcap_create p none paddingTop paddingBottom width height cb =
          some (res, if res = NO_ERROR then some s else none, t)) := by
  have hiff := arpcap_create_rejects_iff paddingTop paddingBottom width height cb
  have hgo : arpcap_create_rejects paddingTop paddingBottom width height cb = false →
      ∃ res s t,
        (ScreenCapture.new p.uninitialized).createDisplay p
          paddingTop paddingBottom width height cb = some (res, s, t) ∧
        t ≠ [] ∧
        arpcap_create p none paddingTop paddingBottom width height cb =
          some (res, if res = NO_ERROR then some s else none, t) := by
    intro hr
    by_cases hd : p.getDisplayInfo.1 = NO_ERROR
    · by_cases hi : p.initCheck = NO_ERROR
      · refine ⟨_, _, _, createDisplay_succeeds p _ _ _ _ _ _ _ cb
          (new_destroyDisplay p p.uninitialized) hd hi, by simp, ?_⟩
        rw [arpcap_create_succeeds p _ _ _ _ cb hr hd hi]
        simp
      · refine ⟨_, _, _, createDisplay_initCheck_fails p _ _ _ _ _ _ _ cb
          (new_destroyDisplay p p.uninitialized) hd hi, by simp, ?_⟩
        rw [arpcap_create_initCheck_fails p _ _ _ _ cb hr hd hi]
        simp [hi]
    · refine ⟨_, _, _, createDisplay_getDisplayInfo_fails p _ _ _ _ _ _ _ cb
        (new_destroyDisplay p p.uninitialized) hd, by simp, ?_⟩
      rw [arpcap_create_getDisplayInfo_fails p _ _ _ _ cb hr hd]
      simp [hd]
  constructor
  · constructor
    · intro h
      cases hr : arpcap_create_rejects paddingTop paddingBottom width height cb with
      | true => exact hiff.mp hr
      | false =>
        obtain ⟨res, s, t, -, hne, hcr⟩ := hgo hr
        rw [hcr] at h
        simp only [Option.some.injEq, Prod.mk.injEq] at h
        exact absurd h.2.2 hne
    · intro h
      exact arpcap_create_rejected p _ _ _ _ _ (hiff.mpr h)
  · intro h
    cases hr : arpcap_create_rejects paddingTop paddingBottom width height cb with
    | true => exact absurd (hiff.mp hr) h
    | false => exact hgo hr

/-- C9 at concrete arguments: `arpcap_create(0, 0, 0, 1280, cb)` is rejected, while
`arpcap_create(0, 0, 0, 0, nullptr)`, for which `0 < height` fails, goes on to
`createDisplay`. -/
theorem C9_rejection_condition_witness :
    arpcap_create exPlatform none 0 0 0 1280 (some 1) = some (BAD_VALUE, none, []) ∧
    ∃ res s t,
      (ScreenCapture.new exPlatform.uninitialized).createDisplay exPlatform
        0 0 0 0 none = some (res, s, t) ∧
      t ≠ [] ∧
      arpcap_create exPlatform none 0 0 0 0 none =
        some (res, if res = NO_ERROR then some s else none, t) :=
  ⟨(C9_rejection_condition exPlatform 0 0 0 1280 (some 1)).1.mpr (by decide),
   (C9_rejection_condition exPlatform 0 0 0 0 none).2 (by decide)⟩

/-! ## Every session the interface leaves behind has a CPU consumer -/

theorem invoke_hasConsumer (p : Platform) (sCap : Option ScreenCapture) (call : ApiCall)
    (o : Outcome) (hinv : invoke p sCap call = some o) (hb : SessionHasConsumer sCap) :
    SessionHasConsumer o.sCap := by
  cases call with
  | get_display_info info =>
    simp only [invoke, Option.some.injEq] at hinv
    subst hinv
    exact hb
  | create paddingTop paddingBottom width height cb =>
    cases sCap with
    | some s =>
      simp only [invoke, arpcap_create, Option.map_some', Option.some.injEq] at hinv
      subst hinv
      exact hb
    | none =>
      cases hr : arpcap_create_rejects paddingTop paddingBottom width height cb with
      | true =>
        simp only [invoke, arpcap_create_rejected _ _ _ _ _ _ hr, Option.map_some',
          Option.some.injEq] at hinv
        subst hinv
        exact hb
      | false =>
        by_cases hd : p.getDisplayInfo.1 = NO_ERROR
        · by_cases hi : p.initCheck = NO_ERROR
          · simp only [invoke, arpcap_create_succeeds _ _ _ _ _ _ hr hd hi, Option.map_some',
              Option.some.injEq] at hinv
            subst hinv
            intro s hs
            simp only [Option.some.injEq] at hs
            subst hs
            exact ⟨_, rfl⟩
          · simp only [invoke, arpcap_create_initCheck_fails _ _ _ _ _ _ hr hd hi,
              Option.map_some', Option.some.injEq] at hinv
            subst hinv
            exact hb
        · simp only [invoke, arpcap_create_getDisplayInfo_fails _ _ _ _ _ _ hr hd,
            Option.map_some', Option.some.injEq] at hinv
          subst hinv
          exact hb
  | destroy =>
    cases sCap with
    | none =>
      simp only [invoke, arpcap_destroy, Option.map_some', Option.some.injEq] at hinv
      subst hinv
      exact hb
    | some s =>
      simp only [invoke, arpcap_destroy, Option.map_eq_some'] at hinv
      obtain ⟨r, hr, rfl⟩ := hinv
      have hnone : r.1 = none := by
        cases h1 : s.destroyDisplay p with
        | none => simp [h1] at hr
        | some x =>
          obtain ⟨s1, t1⟩ := x
          cases h2 : s1.delete p with
          | none => simp [h1, h2] at hr
          | some t2 =>
            simp [h1, h2] at hr
            rw [← hr]
      intro s' hs
      rw [hnone] at hs
      exact absurd hs (by simp)
  | acquire_frame_buffer fb =>
    cases fb with
    | none =>
      simp only [invoke, arpcap_acquire_frame_buffer, Option.map_some', Option.some.injEq] at hinv
      subst hinv
      exact hb
    | some b =>
      cases sCap with
      | none => simp [invoke, arpcap_acquire_frame_buffer] at hinv
      | some s =>
        obtain ⟨c, hc⟩ := hb s rfl
        simp only [invoke, arpcap_acquire_frame_buffer_eq _ s c b hc, Option.map_some',
          Option.some.injEq] at hinv
        subst hinv
        intro s' hs
        simp only [Option.some.injEq] at hs
        subst hs
        exact ⟨_, rfl⟩
  | release_frame_buffer =>
    cases sCap with
    | none => simp [invoke, arpcap_release_frame_buffer] at hinv
    | some s =>
      obtain ⟨c, hc⟩ := hb s rfl
      have hrel := releaseFrameBuffer_defined p s c hc
      by_cases hdata : s.mBuffer.data = 0
      · simp [hdata] at hrel
        simp [invoke, arpcap_release_frame_buffer, hrel] at hinv
        subst hinv
        exact hb
      · simp [hdata] at hrel
        simp [invoke, arpcap_release_frame_buffer, hrel] at hinv
        subst hinv
        intro s' hs
        simp only [Option.some.injEq] at hs
        subst hs
        exact ⟨_, rfl⟩

theorem run_hasConsumer (calls : List (Platform × ApiCall)) :
    ∀ (sCap st : Option ScreenCapture), SessionHasConsumer sCap →
      run calls sCap = some st → SessionHasConsumer st := by
  induction calls with
  | nil =>
    intro sCap st hb hrun
    simp only [run, Option.some.injEq] at hrun
    subst hrun
    exact hb
  | cons x rest ih =>
    intro sCap st hb hrun
    obtain ⟨p, call⟩ := x
    simp only [run] at hrun
    cases hinv : invoke p sCap call with
    | none => simp [hinv] at hrun
    | some o =>
      simp only [hinv] at hrun
      exact ih o.sCap st (invoke_hasConsumer p sCap call o hinv hb) hrun

/-- In every state the C interface can reach, whatever the platform answers, a
session that exists holds a CPU consumer. -/
theorem reachable_hasConsumer (sCap : Option ScreenCapture) (h : Reachable sCap) :
    SessionHasConsumer sCap := by
  obtain ⟨calls, hrun⟩ := h
  refine run_hasConsumer calls none sCap ?_ hrun
  intro s hs
  exact absurd hs (by simp)
